import Mathlib

/-!
Verification development for `hf3lint.py`, a linter for hf3 / bcdata
configuration documents.  The Python source is embedded shallowly:

* documents are nested string-keyed mappings (`Val`),
* the path accessor `getter`/`get` returns a `GetResult` (a value, `None`
  represented as `absent`, or a raised `AttributeError`),
* fallible rule procedures return `Except Unit (List Entry)`, where
  `Except.error ()` models a Python exception escaping the procedure,
* Python regular-expression matching of the three anchored patterns used by
  the source is modelled by executable matchers that reproduce `re`'s
  semantics, including `$` matching just before a single trailing newline,
* Python floats are modelled by exact rationals extended with
  infinities and NaN (`PyF`).
-/

set_option maxRecDepth 10000

namespace Hf3lint

/-- Report entry: `Entry(level, message, path)` from `hf3lint.py`.  The
constructor sets `self.number = 0`, and no code ever changes it. -/
structure Entry where
  level : String
  message : String
  path : String
  number : Nat
deriving DecidableEq

/-- `_RuleDispatcher.add_error`: appends `Entry('E', message, path)`. -/
def mkError (message path : String) : Entry := ⟨"E", message, path, 0⟩

/-- `_RuleDispatcher.add_warning`: appends `Entry('W', message, path)`. -/
def mkWarning (message path : String) : Entry := ⟨"W", message, path, 0⟩

/-- `_RuleDispatcher.add_information`: appends `Entry('I', message, path)`. -/
def mkInformation (message path : String) : Entry := ⟨"I", message, path, 0⟩

/-- Documents produced by `dictionfy`: nested mappings whose values are
scalar strings or nested mappings. -/
inductive Val where
  | str (s : String)
  | dict (m : List (String × Val))

/-- Result of `getter(path)(data)`: a value, `None` (`absent`), or the
`AttributeError` raised by `data.get` when `data` is not a dict. -/
inductive GetResult where
  | found (v : Val)
  | absent
  | attrError

/-- Python `dict.get(s, None)`: keys of a dict are unique, so first-match
lookup is faithful. -/
def lookupKey : List (String × Val) → String → Option Val
  | [], _ => none
  | (k, v) :: rest, s => if k = s then some v else lookupKey rest s

/-- `getter(path)(data)` with the path already split into segments: walk the
segments; `data.get(s, None)` yields `None` on a missing key (loop breaks,
returning `None`), and raises `AttributeError` when the current value is a
string rather than a dict. -/
def get : List String → Val → GetResult
  | [], v => .found v
  | _ :: _, .str _ => .attrError
  | s :: rest, .dict m =>
    match lookupKey m s with
    | none => .absent
    | some v => get rest v

/-- Python `str.split(sep)` for a one-character separator, on character
lists: `"".split(".") == [""]`, empty fields are kept. -/
def pySplit (sep : Char) : List Char → List (List Char)
  | [] => [[]]
  | c :: rest =>
    if c = sep then [] :: pySplit sep rest
    else
      match pySplit sep rest with
      | [] => [[c]]
      | g :: gs => (c :: g) :: gs

/-- Python `s.split(sep)` for a one-character separator. -/
def splitStr (sep : Char) (s : String) : List String :=
  (pySplit sep s.data).map (fun l => ⟨l⟩)

/-- `get(path, data)` with a string path: `path.split(".")` then walk. -/
def getS (path : String) (data : Val) : GetResult := get (splitStr '.' path) data

/-- `'.'.join(path)`. -/
def joinDot : List String → String
  | [] => ""
  | [p] => p
  | p :: rest => p ++ "." ++ joinDot rest

/-- Python `str.strip()` whitespace characters. -/
def pyWS (c : Char) : Bool :=
  c == ' ' || c == '\t' || c == '\n' || c == '\r' || c == '\x0b' || c == '\x0c'

/-- Python `str.strip()` on a character list. -/
def pyStripList (cs : List Char) : List Char :=
  ((cs.dropWhile pyWS).reverse.dropWhile pyWS).reverse

/-- Python `str.strip()`. -/
def pyStrip (s : String) : String := ⟨pyStripList s.data⟩

/-- Body of the pattern `^\d+$`: one or more ASCII digit characters
(Python 2 `\d` on `str` is `[0-9]`). -/
def natCore (cs : List Char) : Bool := !cs.isEmpty && cs.all (·.isDigit)

/-- Truthiness of Python `re.match` for an anchored pattern `^body$` whose
body cannot match a newline: `$` matches at the end of the string or just
before a newline that ends the string. -/
def reMatchCore (core : List Char → Bool) (s : String) : Bool :=
  core s.data || (s.data.getLast? == some '\n' && core s.data.dropLast)

/-- `REGEX_NATURAL = re.compile(r'^\d+$')`, applied via `re.match`. -/
def reMatchNatural (s : String) : Bool := reMatchCore natCore s

/-- Strips a single leading `+` or `-` sign. -/
def dropSign : List Char → List Char
  | '+' :: r => r
  | '-' :: r => r
  | cs => cs

/-- Matches `([eE][+-]?\d+)?$` against the remaining input. -/
def expEnd : List Char → Bool
  | [] => true
  | c :: r =>
    (c == 'e' || c == 'E') &&
      (let r2 := dropSign r
       let p := r2.span (·.isDigit)
       !p.1.isEmpty && p.2.isEmpty)

/-- Matches `(\.\d*)?([eE][+-]?\d+)?$` after a nonempty digit run. -/
def mantissaTail : List Char → Bool
  | '.' :: r2 =>
    let p := r2.span (·.isDigit)
    expEnd p.2
  | r => expEnd r

/-- Body of `REGEX_FLOAT`: `[+-]?(\d+(\.\d*)?|\.\d+)([eE][+-]?\d+)?`.  The
two mantissa alternatives are distinguished by the first character, and each
optional group is forced by the next character, so this deterministic parse
is equivalent to the backtracking regex. -/
def floatCore (cs : List Char) : Bool :=
  let cs1 := dropSign cs
  let p := cs1.span (·.isDigit)
  if p.1.isEmpty then
    match cs1 with
    | '.' :: r2 =>
      let q := r2.span (·.isDigit)
      !q.1.isEmpty && expEnd q.2
    | _ => false
  else mantissaTail p.2

/-- `REGEX_FLOAT = re.compile(r'^[+-]?(\d+(\.\d*)?|\.\d+)([eE][+-]?\d+)?$')`,
applied via `re.match`. -/
def reMatchFloat (s : String) : Bool := reMatchCore floatCore s

/-- `REGEX_NATURAL.pattern`. -/
def naturalPattern : String := "^\\d+$"

/-- `REGEX_FLOAT.pattern`. -/
def floatPattern : String := "^[+-]?(\\d+(\\.\\d*)?|\\.\\d+)([eE][+-]?\\d+)?$"

/-- Failure message of `Checkers.is_regex`:
`"field '%s' was not matched by %s " % (o.strip(), regex.pattern)`. -/
def regexMsg (o pat : String) : String :=
  "field " ++ "\x27" ++ pyStrip o ++ "\x27" ++ " was not matched by " ++ pat ++ " "

/-- Python float values, as produced by `float(str)`: finite values are
modelled as exact rationals; infinities and NaN are explicit. -/
inductive PyF where
  | fin (q : ℚ)
  | inf
  | ninf
  | nan
deriving DecidableEq

/-- Python `<=` on floats (`False` whenever NaN is involved). -/
def PyF.le : PyF → PyF → Bool
  | .fin a, .fin b => a ≤ b
  | .nan, _ => false
  | _, .nan => false
  | .ninf, _ => true
  | _, .inf => true
  | _, _ => false

/-- Python `0.5 * x` on floats (exact for every float and for `inf`/`nan`). -/
def PyF.half : PyF → PyF
  | .fin q => .fin (q / 2)
  | .inf => .inf
  | .ninf => .ninf
  | .nan => .nan

/-- Value of a digit run. -/
def digitsVal (cs : List Char) : Nat :=
  cs.foldl (fun a c => a * 10 + (c.toNat - Char.toNat '0')) 0

/-- Rational power of ten. -/
def pow10 (n : Nat) : ℚ := (10 : ℚ) ^ n

/-- Applies an optional trailing exponent `([eE][+-]?\d+)?` to a mantissa
value and demands that the input is fully consumed; `none` models
`ValueError`. -/
def applyExp (q : ℚ) : List Char → Option ℚ
  | [] => some q
  | c :: r =>
    if c == 'e' || c == 'E' then
      let sgn : Bool := match r with | '-' :: _ => true | _ => false
      let r2 := dropSign r
      let p := r2.span (·.isDigit)
      if p.1.isEmpty || !p.2.isEmpty then none
      else some (if sgn then q / pow10 (digitsVal p.1) else q * pow10 (digitsVal p.1))
    else none

/-- Parses the unsigned decimal part accepted by Python `float`:
`digits [. digits] | . digits`, with an optional exponent. -/
def parseDecimal (cs : List Char) : Option ℚ :=
  let p := cs.span (·.isDigit)
  if p.1.isEmpty then
    match cs with
    | '.' :: r2 =>
      let q := r2.span (·.isDigit)
      if q.1.isEmpty then none
      else applyExp ((digitsVal q.1 : ℚ) / pow10 q.1.length) q.2
    | _ => none
  else
    match p.2 with
    | '.' :: r2 =>
      let q := r2.span (·.isDigit)
      applyExp ((digitsVal p.1 : ℚ) + (digitsVal q.1 : ℚ) / pow10 q.1.length) q.2
    | r => applyExp (digitsVal p.1 : ℚ) r

/-- Case-insensitive comparison with a fixed lower-case word. -/
def lcEq (cs : List Char) (t : String) : Bool := cs.map Char.toLower == t.data

/-- Python `float(s)` on a string: strips whitespace, takes an optional
sign, then accepts `inf`/`infinity`/`nan` (case-insensitively) or a decimal
literal with optional exponent.  `none` models the `ValueError` raised on
any other string. -/
def pyFloat (s : String) : Option PyF :=
  let cs := pyStripList s.data
  let neg : Bool := match cs with | '-' :: _ => true | _ => false
  let body := dropSign cs
  if lcEq body "inf" || lcEq body "infinity" then some (if neg then .ninf else .inf)
  else if lcEq body "nan" then some .nan
  else
    match parseDecimal body with
    | none => none
    | some q => some (.fin (if neg then -q else q))

/-- Python `int(s)` for the digit strings that reach it in `_check_entry`
(they have already matched `^\d+$`, possibly with a trailing newline, which
`int` strips as whitespace). -/
def pyIntOpt (s : String) : Option Nat :=
  let cs := pyStripList s.data
  if !cs.isEmpty && cs.all (·.isDigit) then some (digitsVal cs) else none

/-- External collaborators of the checker library: the file system
(`os.path.exists`, `os.path.abspath`) and Python's rendering of `dict` /
`set` values in `%s` formatting (whose order depends on hashing and is not
derivable from the source). -/
structure Ext where
  fs : String → Bool
  abspath : String → String
  strOfDict : List (String × Val) → String
  reprSet : List String → String

namespace Checkers

/-- `Checkers.is_str(o)`: `o is not None and isinstance(o, str)`. -/
def is_strV : Val → Bool × String
  | .str _ => (true, "string expected")
  | .dict _ => (false, "string expected")

/-- `Checkers.file_exists(o)`: `os.path.exists` raises `TypeError` on a
dict, hence `Except.error` there. -/
def file_existsV (ext : Ext) : Val → Except Unit (Bool × String)
  | .str s => .ok (ext.fs s, "file " ++ ext.abspath s ++ " does exists")
  | .dict _ => .error ()

/-- `Checkers.is_natural_number(o)` on a string:
`is_regex(REGEX_NATURAL, o)`. -/
def is_natural_number (s : String) : Bool × String :=
  (reMatchNatural s, regexMsg s naturalPattern)

/-- `Checkers.is_float(o)` on a string: `is_regex(REGEX_FLOAT, o)`. -/
def is_float (s : String) : Bool × String :=
  (reMatchFloat s, regexMsg s floatPattern)

/-- `Checkers.isOneOf(enum, o)`: `o in enum` raises `TypeError` on an
unhashable dict. -/
def isOneOf (enum : List String) (ext : Ext) : Val → Except Unit (Bool × String)
  | .str s => .ok (enum.contains s, s ++ " has to be in " ++ ext.reprSet enum)
  | .dict _ => .error ()

/-- `Checkers.is_equals(a, b)` with `str(a)` precomputed: `str(a) == b`
(comparing a string with a dict is `False` in Python 2, no exception). -/
def is_equals (litStr : String) (ext : Ext) : Val → Bool × String
  | .str s => (litStr == s, litStr ++ " is not equals " ++ s)
  | .dict m => (false, litStr ++ " is not equals " ++ ext.strOfDict m)

end Checkers

/-- The checkers that occur as schema leaves in `HF3DataLint.FIELDS`. -/
inductive CheckerId where
  | is_str
  | file_exists
  | is_natural_number
  | is_float
  | oneOf (args : List String)
deriving DecidableEq

/-- A flattened schema leaf: either one of the `Checkers` functions or a
literal wrapped by `partial(Checkers.is_equals, v)` (with `str(v)` already
rendered). -/
inductive LeafCheck where
  | ck (c : CheckerId)
  | eq (litStr : String)
deriving DecidableEq

/-- Evaluates a schema leaf check on a document value, `Except.error`
modelling the `TypeError` raised by regex matching / hashing / `os.path`
on a dict value. -/
def runLeaf (ext : Ext) : LeafCheck → Val → Except Unit (Bool × String)
  | .ck .is_str, v => .ok (Checkers.is_strV v)
  | .ck .file_exists, v => Checkers.file_existsV ext v
  | .ck .is_natural_number, .str s => .ok (Checkers.is_natural_number s)
  | .ck .is_natural_number, .dict _ => .error ()
  | .ck .is_float, .str s => .ok (Checkers.is_float s)
  | .ck .is_float, .dict _ => .error ()
  | .ck (.oneOf args), v => Checkers.isOneOf args ext v
  | .eq l, v => .ok (Checkers.is_equals l ext v)

/-- A schema node: nested schema, checker leaf, or literal leaf. -/
inductive FieldSpec where
  | nested (m : List (String × FieldSpec))
  | check (c : CheckerId)
  | lit (litStr : String)

/-- `HF3DataLint.FIELDS`, in source order.  Literal leaves carry `str(v)`
of the Python literal (`2 ↦ "2"`, `1.0 ↦ "1.0"`, `0.8 ↦ "0.8"`, ...). -/
def FIELDS : List (String × FieldSpec) :=
  [("Param", .nested
    [("OutputPathAndPrefix", .check .is_str),
     ("Mesh", .nested
       [("Filename", .check .file_exists),
        ("BCdataFilename", .check .file_exists),
        ("InitialRefLevel", .check .is_natural_number)]),
     ("LinearAlgebra", .nested
       [("Platform", .check (.oneOf ["CPU", "GPU", "OPENCL"])),
        ("Implementation", .check (.oneOf ["Naive", "BLAS", "OPENMP", "MKL"])),
        ("MatrixFormat", .check (.oneOf ["NAIVE", "BLAS", "COO", "ELL", "CSR"]))]),
     ("ElasticityModel", .nested
       [("density", .check .is_float),
        ("lambda", .check .is_natural_number),
        ("mu", .check .is_natural_number),
        ("gravity", .check .is_float)]),
     ("QuadratureOrder", .lit "2"),
     ("FiniteElements", .nested [("DisplacementDegree", .lit "1")]),
     ("Instationary", .nested
       [("SolveInstationary", .check (.oneOf ["1", "2"])),
        ("DampingFactor", .lit "1.0"),
        ("RayleighAlpha", .check .is_float),
        ("RayleighBeta", .check .is_float),
        ("Method", .check (.oneOf ["ImplicitEuler", "CrankNicolson", "ExplicitEuler", "Newmark"])),
        ("DeltaT", .check .is_float),
        ("MaxTimeStepIts", .check .is_natural_number)]),
     ("Boundary", .nested
       [("DirichletMaterial1", .check .is_natural_number),
        ("DirichletMaterial2", .check .is_natural_number),
        ("DirichletMaterial3", .check .is_natural_number),
        ("NeumannMaterial1", .check .is_natural_number),
        ("NeumannMaterial1Pressure", .check .is_float),
        ("NeumannMaterial2", .check .is_natural_number),
        ("NeumannMaterial2Pressure", .check .is_float)]),
     ("LinearSolver", .nested
       [("SolverName", .check (.oneOf ["CG", "GMRES"])),
        ("MaximumIterations", .check .is_natural_number),
        ("AbsoluteTolerance", .check .is_float),
        ("RelativeTolerance", .check .is_float),
        ("DivergenceLimit", .check .is_float),
        ("BasisSize", .check .is_natural_number),
        ("Preconditioning", .check (.oneOf ["0", "1"])),
        ("PreconditionerName", .check (.oneOf
          ["SGAUSS_SEIDEL", "NOPRECOND", "JACOBI", "GAUSS_SEIDEL",
           "SGAUSS_SEIDEL", "SOR", "SSOR", "ILU", "ILU2", "ILU_P", "ILUpp"])),
        ("Omega", .check .is_float),
        ("ILU_p", .check .is_float)]),
     ("ILUPP", .nested
       [("PreprocessingType", .lit "0"),
        ("PreconditionerNumber", .lit "11"),
        ("MaxMultilevels", .lit "20"),
        ("MemFactor", .lit "0.8"),
        ("PivotThreshold", .lit "2.75"),
        ("MinPivot", .lit "0.05")])])]

/-- The `recur` helper of `HF3DataLint._build_rules_from_fields`: depth-first
flattening of a schema into `(path, check)` pairs (nested schemas recurse,
callables are taken as-is, literals are wrapped by
`partial(Checkers.is_equals, v)`).  The recursion is given an explicit fuel
bound (Python's own recursion is bounded by the interpreter's stack limit);
`buildRules_eq` below verifies that the fuel supplied by
`buildRulesFromFields` fully flattens `FIELDS`. -/
def recurFields : Nat → List (String × FieldSpec) → List String → List (List String × LeafCheck)
  | 0, _, _ => []
  | _ + 1, [], _ => []
  | fuel + 1, (k, .nested m) :: rest, path =>
    recurFields fuel m (path ++ [k]) ++ recurFields fuel rest path
  | fuel + 1, (k, .check c) :: rest, path => (path ++ [k], .ck c) :: recurFields fuel rest path
  | fuel + 1, (k, .lit l) :: rest, path => (path ++ [k], .eq l) :: recurFields fuel rest path

/-- `HF3DataLint._build_rules_from_fields()`. -/
def buildRulesFromFields : List (List String × LeafCheck) := recurFields 100 FIELDS []

/-- The value of `buildRulesFromFields`, written out (the recursion over the
nested schema is not kernel-reducible, so concrete runs go through this
proved equation). -/
def flatFIELDS : List (List String × LeafCheck) :=
  [(["Param", "OutputPathAndPrefix"], .ck .is_str),
   (["Param", "Mesh", "Filename"], .ck .file_exists),
   (["Param", "Mesh", "BCdataFilename"], .ck .file_exists),
   (["Param", "Mesh", "InitialRefLevel"], .ck .is_natural_number),
   (["Param", "LinearAlgebra", "Platform"], .ck (.oneOf ["CPU", "GPU", "OPENCL"])),
   (["Param", "LinearAlgebra", "Implementation"], .ck (.oneOf ["Naive", "BLAS", "OPENMP", "MKL"])),
   (["Param", "LinearAlgebra", "MatrixFormat"], .ck (.oneOf ["NAIVE", "BLAS", "COO", "ELL", "CSR"])),
   (["Param", "ElasticityModel", "density"], .ck .is_float),
   (["Param", "ElasticityModel", "lambda"], .ck .is_natural_number),
   (["Param", "ElasticityModel", "mu"], .ck .is_natural_number),
   (["Param", "ElasticityModel", "gravity"], .ck .is_float),
   (["Param", "QuadratureOrder"], .eq "2"),
   (["Param", "FiniteElements", "DisplacementDegree"], .eq "1"),
   (["Param", "Instationary", "SolveInstationary"], .ck (.oneOf ["1", "2"])),
   (["Param", "Instationary", "DampingFactor"], .eq "1.0"),
   (["Param", "Instationary", "RayleighAlpha"], .ck .is_float),
   (["Param", "Instationary", "RayleighBeta"], .ck .is_float),
   (["Param", "Instationary", "Method"],
     .ck (.oneOf ["ImplicitEuler", "CrankNicolson", "ExplicitEuler", "Newmark"])),
   (["Param", "Instationary", "DeltaT"], .ck .is_float),
   (["Param", "Instationary", "MaxTimeStepIts"], .ck .is_natural_number),
   (["Param", "Boundary", "DirichletMaterial1"], .ck .is_natural_number),
   (["Param", "Boundary", "DirichletMaterial2"], .ck .is_natural_number),
   (["Param", "Boundary", "DirichletMaterial3"], .ck .is_natural_number),
   (["Param", "Boundary", "NeumannMaterial1"], .ck .is_natural_number),
   (["Param", "Boundary", "NeumannMaterial1Pressure"], .ck .is_float),
   (["Param", "Boundary", "NeumannMaterial2"], .ck .is_natural_number),
   (["Param", "Boundary", "NeumannMaterial2Pressure"], .ck .is_float),
   (["Param", "LinearSolver", "SolverName"], .ck (.oneOf ["CG", "GMRES"])),
   (["Param", "LinearSolver", "MaximumIterations"], .ck .is_natural_number),
   (["Param", "LinearSolver", "AbsoluteTolerance"], .ck .is_float),
   (["Param", "LinearSolver", "RelativeTolerance"], .ck .is_float),
   (["Param", "LinearSolver", "DivergenceLimit"], .ck .is_float),
   (["Param", "LinearSolver", "BasisSize"], .ck .is_natural_number),
   (["Param", "LinearSolver", "Preconditioning"], .ck (.oneOf ["0", "1"])),
   (["Param", "LinearSolver", "PreconditionerName"],
     .ck (.oneOf ["SGAUSS_SEIDEL", "NOPRECOND", "JACOBI", "GAUSS_SEIDEL",
       "SGAUSS_SEIDEL", "SOR", "SSOR", "ILU", "ILU2", "ILU_P", "ILUpp"])),
   (["Param", "LinearSolver", "Omega"], .ck .is_float),
   (["Param", "LinearSolver", "ILU_p"], .ck .is_float),
   (["Param", "ILUPP", "PreprocessingType"], .eq "0"),
   (["Param", "ILUPP", "PreconditionerNumber"], .eq "11"),
   (["Param", "ILUPP", "MaxMultilevels"], .eq "20"),
   (["Param", "ILUPP", "MemFactor"], .eq "0.8"),
   (["Param", "ILUPP", "PivotThreshold"], .eq "2.75"),
   (["Param", "ILUPP", "MinPivot"], .eq "0.05")]


/-- One iteration of the loop in `HF3DataLint._rule_check_FIELDS`: resolve
the pair's path; `None` records `add_error("Field does not exists", p)`
without calling the checker, otherwise the checker runs and `assert_error`
records its message exactly when it fails. -/
def checkPair (ext : Ext) (data : Val) (pr : List String × LeafCheck) :
    Except Unit (List Entry) :=
  match get pr.1 data with
  | .attrError => .error ()
  | .absent => .ok [mkError "Field does not exists" (joinDot pr.1)]
  | .found v =>
    match runLeaf ext pr.2 v with
    | .error e => .error e
    | .ok (check, message) =>
      .ok (if check then [] else [mkError message (joinDot pr.1)])

/-- The loop of `HF3DataLint._rule_check_FIELDS` over a pair list; a raised
exception aborts the whole procedure. -/
def runPairs (ext : Ext) (data : Val) : List (List String × LeafCheck) → Except Unit (List Entry)
  | [] => .ok []
  | pr :: rest =>
    match checkPair ext data pr with
    | .error e => .error e
    | .ok es =>
      match runPairs ext data rest with
      | .error e => .error e
      | .ok rest' => .ok (es ++ rest')

/-- `HF3DataLint._rule_check_FIELDS`. -/
def rule_check_FIELDS (ext : Ext) (data : Val) : Except Unit (List Entry) :=
  runPairs ext data buildRulesFromFields

/-- `float(get(p, data))`: `float` raises `TypeError` on `None` (absent
path) and on a dict, `ValueError` on an unparseable string; an
`AttributeError` from `get` itself also escapes. -/
def floatOfGet : GetResult → Option PyF
  | .found (.str s) => pyFloat s
  | _ => none

/-- `HF3DataLint._rule_lambda_mu`: reads and parses both fields, then
`assert_warning(mu <= 0.5 * lam, ...)`. -/
def rule_lambda_mu (data : Val) : Except Unit (List Entry) :=
  match floatOfGet (getS "Param.ElasticityModel.mu" data) with
  | none => .error ()
  | some mu =>
    match floatOfGet (getS "Param.ElasticityModel.lambda" data) with
    | none => .error ()
    | some lam =>
      .ok (if mu.le lam.half then []
        else [mkWarning
          "Param.ElasticityModel.mu should half so small or smaller than Param.ElasticityModel.lambda"
          "Param.ElasticityModel.mu"])

/-- `self._report = []` at the start of `_RuleDispatcher.validate`. -/
def resetReport (_prior : List Entry) : List Entry := []

/-- The `_rule_*` methods `validate` discovers on `HF3DataLint`, in the
sorted order in which they are invoked. -/
def hf3RuleNames : List String := ["_rule_check_FIELDS", "_rule_lambda_mu"]

/-- `HF3DataLint().validate(data)` starting from a prior report state:
resets the report, then runs the discovered rules in sorted name order
(`_rule_check_FIELDS`, then `_rule_lambda_mu`), accumulating entries; an
exception in a rule escapes `validate`. -/
def hf3Validate (prior : List Entry) (ext : Ext) (data : Val) : Except Unit (List Entry) :=
  match rule_check_FIELDS ext data with
  | .error e => .error e
  | .ok r1 =>
    match rule_lambda_mu data with
    | .error e => .error e
    | .ok r2 => .ok (resetReport prior ++ r1 ++ r2)

/-- Python `s.count(c)` for a single character. -/
def countCh (c : Char) (s : String) : Nat := (s.data.filter (· == c)).length

/-- `BCDataLint._check_exists(struct, path, prefixpath)`: resolves `path`
inside `struct` (raising if `struct` is a string), records
`"Field does not exists"` when absent, and returns the condition. -/
def check_exists (struct : Val) (path : String) (prefixpath : String) :
    Except Unit (Bool × List Entry) :=
  match getS path struct with
  | .attrError => .error ()
  | .absent => .ok (false, [mkError "Field does not exists" (prefixpath ++ "." ++ path)])
  | .found _ => .ok (true, [])

/-- The local `check_points(field)` of `BCDataLint._check_entry`:
`exp = int(get(numberOf, struct))`, `found = 1 + get(field, struct).count(";")`;
`.count` on a dict raises `AttributeError`, `int` of a dict raises
`TypeError`. -/
def check_points (struct : Val) (rootpath numberOf field : String) :
    Except Unit (List Entry) :=
  match getS numberOf struct with
  | .found (.str sN) =>
    match pyIntOpt sN with
    | none => .error ()
    | some exp =>
      match getS field struct with
      | .found (.str sF) =>
        let found := 1 + countCh ';' sF
        .ok (if exp == found then []
          else [mkError
            ("Amount of points mismatch (expected " ++ toString exp ++
              ", found " ++ toString found ++ ")")
            (rootpath ++ "." ++ field)])
      | _ => .error ()
  | _ => .error ()

/-- `BCDataLint._check_points_format(path, points)`: splits on `;`; a
segment whose comma-split length is not 3 records an arity error, and every
comma-separated component is float-checked regardless. -/
def check_points_format (path : String) (points : String) : List Entry :=
  (splitStr ';' points).flatMap (fun vector =>
    let nums := splitStr ',' vector
    (if nums.length == 3 then []
     else [mkError ("The vector " ++ vector ++ " does not have exact 3 components") path])
    ++ nums.flatMap (fun n =>
        if (Checkers.is_float n).1 then [] else [mkError (Checkers.is_float n).2 path]))

/-- `_check_points_format` applied to `get(field, struct)`: `split` on a
dict value raises `AttributeError`. -/
def check_points_format_v (path : String) : Val → Except Unit (List Entry)
  | .str s => .ok (check_points_format path s)
  | .dict _ => .error ()

/-- `BCDataLint._check_entry(data, rootpath, numberOf, points, displacement)`.
The three existence checks are combined with Python's short-circuiting
`and`; a missing sub-structure is a no-op; after the natural-number check of
the count the two list fields are length-checked and then format-checked
(displacement list first, point list second). -/
def check_entry (data : Val) (rootpath numberOf points displacement : String) :
    Except Unit (List Entry) :=
  match getS rootpath data with
  | .attrError => .error ()
  | .absent => .ok []
  | .found struct =>
    match check_exists struct numberOf rootpath with
    | .error e => .error e
    | .ok (false, e1) => .ok e1
    | .ok (true, e1) =>
      match check_exists struct points rootpath with
      | .error e => .error e
      | .ok (false, e2) => .ok (e1 ++ e2)
      | .ok (true, e2) =>
        match check_exists struct displacement rootpath with
        | .error e => .error e
        | .ok (false, e3) => .ok (e1 ++ e2 ++ e3)
        | .ok (true, e3) =>
          match getS numberOf struct with
          | .found (.str sN) =>
            if !(Checkers.is_natural_number sN).1 then
              .ok (e1 ++ e2 ++ e3 ++
                [mkError (Checkers.is_natural_number sN).2 (rootpath ++ "." ++ numberOf)])
            else
              match check_points struct rootpath numberOf points with
              | .error e => .error e
              | .ok mP =>
                match check_points struct rootpath numberOf displacement with
                | .error e => .error e
                | .ok mD =>
                  match getS displacement struct with
                  | .found vD =>
                    match check_points_format_v (rootpath ++ "." ++ displacement) vD with
                    | .error e => .error e
                    | .ok fD =>
                      match getS points struct with
                      | .found vP =>
                        match check_points_format_v (rootpath ++ "." ++ points) vP with
                        | .error e => .error e
                        | .ok fP => .ok (e1 ++ e2 ++ e3 ++ mP ++ mD ++ fD ++ fP)
                      | _ => .error ()
                  | _ => .error ()
          | _ => .error ()

/-- `BCDataLint._rule_FixedConstraintsBCs`. -/
def rule_FixedConstraintsBCs (data : Val) : Except Unit (List Entry) :=
  check_entry data "Param.BCData.FixedConstraintsBCs"
    "NumberOfFixedDirichletPoints" "fDPoints" "fDisplacements"

/-- `BCDataLint._rule_DisplacementConstraintsBCs`. -/
def rule_DisplacementConstraintsBCs (data : Val) : Except Unit (List Entry) :=
  check_entry data "Param.BCData.DisplacementConstraintsBCs"
    "NumberOfDisplacedDirichletPoints" "dDPoints" "dDisplacements"

/-- `BCDataLint._rule_ForceOrPressureBCs`. -/
def rule_ForceOrPressureBCs (data : Val) : Except Unit (List Entry) :=
  check_entry data "Param.BCData.ForceOrPressureBCs"
    "NumberOfForceOrPressureBCPoints" "ForceOrPressureBCPoints" "ForcesOrPressure"

/-- The `_rule_*` methods `validate` discovers on `BCDataLint`, in the
sorted order in which they are invoked. -/
def bcRuleNames : List String :=
  ["_rule_DisplacementConstraintsBCs", "_rule_FixedConstraintsBCs", "_rule_ForceOrPressureBCs"]

/-- `BCDataLint().validate(data)` starting from a prior report state. -/
def bcValidate (prior : List Entry) (data : Val) : Except Unit (List Entry) :=
  match rule_DisplacementConstraintsBCs data with
  | .error e => .error e
  | .ok r1 =>
    match rule_FixedConstraintsBCs data with
    | .error e => .error e
    | .ok r2 =>
      match rule_ForceOrPressureBCs data with
      | .error e => .error e
      | .ok r3 => .ok (resetReport prior ++ r1 ++ r2 ++ r3)

/-- Modelled from the spec (section 4.1), for comparison with `get`:
"Resolution walks segments left to right; at each step, if the current
value is not a mapping or does not contain the next segment, resolution
stops and returns absent — it never raises for a missing path." -/
def getSpec : List String → Val → Option Val
  | [], v => some v
  | _ :: _, .str _ => none
  | s :: rest, .dict m =>
    match lookupKey m s with
    | none => none
    | some v => getSpec rest v

/-- Characterizes the raising runs of `get`: some proper stage of the walk
reaches a scalar string with at least one segment left. -/
def hitsScalar : List String → Val → Bool
  | [], _ => false
  | _ :: _, .str _ => true
  | s :: rest, .dict m =>
    match lookupKey m s with
    | none => false
    | some v => hitsScalar rest v

/-- Extracts the report of a completed run (empty for a raising run); used
only to state concrete evaluations. -/
def reportOf : Except Unit (List Entry) → List Entry
  | .ok r => r
  | .error _ => []

/-- Boolean string-list membership (kernel-reducible). -/
def memB (x : String) : List String → Bool
  | [] => false
  | y :: rest => x == y || memB x rest

/-- Boolean freedom from duplicates (kernel-reducible). -/
def nodupB : List String → Bool
  | [] => true
  | x :: rest => !memB x rest && nodupB rest

/-- A concrete instantiation of the external collaborators, used in
witnesses and counterexamples. -/
def ext0 : Ext :=
  { fs := fun _ => true
    abspath := fun s => s
    strOfDict := fun _ => ""
    reprSet := fun _ => "" }

/-- The empty document. -/
def docEmpty : Val := .dict []

/-- A `FixedConstraintsBCs` sub-structure with consistent count 2. -/
def structBC1 : Val := .dict
  [("NumberOfFixedDirichletPoints", .str "2"),
   ("fDPoints", .str "1,2,3;4,5,6"),
   ("fDisplacements", .str "0.1;0.2")]

/-- A document whose `FixedConstraintsBCs` declares count 2 with matching
lists (the spec's first concrete cross-field scenario). -/
def docBC1 : Val := .dict [("Param", .dict [("BCData", .dict
  [("FixedConstraintsBCs", structBC1)])])]

/-- The same scenario with count 3 (the spec's second concrete cross-field
scenario). -/
def docBC2 : Val := .dict [("Param", .dict [("BCData", .dict
  [("FixedConstraintsBCs", .dict
    [("NumberOfFixedDirichletPoints", .str "3"),
     ("fDPoints", .str "1,2,3;4,5,6"),
     ("fDisplacements", .str "0.1;0.2")])])])]

/-- A `FixedConstraintsBCs` sub-structure with two of the three required
fields missing. -/
def structBC3 : Val := .dict [("NumberOfFixedDirichletPoints", .str "2")]

/-- A document whose `FixedConstraintsBCs` is present but misses both the
point list and the value list. -/
def docBC3 : Val := .dict [("Param", .dict [("BCData", .dict
  [("FixedConstraintsBCs", structBC3)])])]

/-- A `FixedConstraintsBCs` sub-structure whose count mismatches both lists
and whose point list contains a malformed vector. -/
def structBC4 : Val := .dict
  [("NumberOfFixedDirichletPoints", .str "3"),
   ("fDPoints", .str "1,x;4,5,6"),
   ("fDisplacements", .str "7,8,9;1,2,3")]

/-- Document wrapping `structBC4`. -/
def docBC4 : Val := .dict [("Param", .dict [("BCData", .dict
  [("FixedConstraintsBCs", structBC4)])])]

/-- Document with `mu = "5"`, `lambda = "8"`. -/
def docMu58 : Val := .dict [("Param", .dict [("ElasticityModel", .dict
  [("mu", .str "5"), ("lambda", .str "8")])])]

/-- Document with `mu = "3"`, `lambda = "8"`. -/
def docMu38 : Val := .dict [("Param", .dict [("ElasticityModel", .dict
  [("mu", .str "3"), ("lambda", .str "8")])])]

/-- Document with an unparseable `mu` and a valid `lambda`. -/
def docMuBad : Val := .dict [("Param", .dict [("ElasticityModel", .dict
  [("mu", .str "abc"), ("lambda", .str "8")])])]

/-- Document with a valid `mu` but no `lambda`. -/
def docMuNoLam : Val := .dict [("Param", .dict [("ElasticityModel", .dict
  [("mu", .str "5")])])]

/-!
Theorems.  The development above is the embedding of `hf3lint.py`; everything
below proves properties of it.
-/

/-- Computes the flattening of `FIELDS` once and for all (the recursion over
the nested schema value is well-founded, hence evaluated by `simp` here
rather than by the kernel). -/
theorem buildRules_eq : buildRulesFromFields = flatFIELDS := by decide

/-- Boolean membership agrees with `∈`. -/
theorem memB_eq_true_iff (x : String) (l : List String) : memB x l = true ↔ x ∈ l := by
  induction l with
  | nil => simp [memB]
  | cons y rest ih => simp [memB, ih, List.mem_cons, beq_iff_eq]

/-- C2, counterexample: on the document `{'a': 'x'}` and the path
`a.b`, the accessor raises `AttributeError` (modelled by `attrError`),
whereas the spec-modelled accessor `getSpec` returns absent — so `get` does
not always "return the value at the path or absent ... without raising any
exception". -/
theorem spec_c2_counterexample :
    get ["a", "b"] (Val.dict [("a", .str "x")]) = .attrError ∧
    getSpec ["a", "b"] (Val.dict [("a", .str "x")]) = none ∧
    hitsScalar ["a", "b"] (Val.dict [("a", .str "x")]) = true :=
  ⟨rfl, rfl, rfl⟩

/-- C2, amended: `get` raises (`attrError`) exactly when some stage of the
walk reaches a scalar string with segments remaining; it returns the value
exactly when the spec-modelled accessor does; and it returns absent exactly
in the remaining case — in particular a merely missing segment in a mapping
yields absent, never an exception. -/
theorem spec_c2_theorem (segs : List String) (d : Val) :
    (get segs d = .attrError ↔ hitsScalar segs d = true) ∧
    (∀ v, get segs d = .found v ↔ getSpec segs d = some v) ∧
    (get segs d = .absent ↔ (hitsScalar segs d = false ∧ getSpec segs d = none)) := by
  induction segs generalizing d with
  | nil => cases d <;> simp [get, hitsScalar, getSpec, eq_comm]
  | cons s rest ih =>
    cases d with
    | str sc => simp [get, hitsScalar, getSpec]
    | dict m =>
      simp only [get, hitsScalar, getSpec]
      cases h : lookupKey m s with
      | none => simp
      | some v => simpa using ih v

/-- C4, counterexample: `_rule_lambda_mu` is a registered rule procedure,
and on the empty document (where `Param.ElasticityModel.mu` is absent) it
raises (`float(None)` is a `TypeError`) instead of recording an Entry. -/
theorem spec_c4_counterexample :
    getS "Param.ElasticityModel.mu" docEmpty = .absent ∧
    rule_lambda_mu docEmpty = .error () :=
  ⟨rfl, rfl⟩

/-- C4, amended: `_rule_lambda_mu` does not degrade to recording Entries on
bad document content; it raises whenever `mu` is absent, whenever `mu` is
present but not parseable as a float, and whenever `mu` parses but `lambda`
is absent. -/
theorem spec_c4_theorem (d : Val) :
    (getS "Param.ElasticityModel.mu" d = .absent → rule_lambda_mu d = .error ()) ∧
    (∀ s, getS "Param.ElasticityModel.mu" d = .found (.str s) → pyFloat s = none →
      rule_lambda_mu d = .error ()) ∧
    (∀ s q, getS "Param.ElasticityModel.mu" d = .found (.str s) → pyFloat s = some q →
      getS "Param.ElasticityModel.lambda" d = .absent → rule_lambda_mu d = .error ()) := by
  refine ⟨fun h => ?_, fun s h hp => ?_, fun s q h hp h2 => ?_⟩
  · simp [rule_lambda_mu, floatOfGet, h]
  · simp [rule_lambda_mu, floatOfGet, h, hp]
  · simp [rule_lambda_mu, floatOfGet, h, hp, h2]

/-- C4, witness: the amended behaviour at two concrete documents — `mu`
absent raises, and `mu = "abc"` (unparseable) raises. -/
theorem spec_c4_witness :
    rule_lambda_mu docEmpty = .error () ∧ rule_lambda_mu docMuBad = .error () :=
  ⟨(spec_c4_theorem docEmpty).1 rfl,
   (spec_c4_theorem docMuBad).2.1 "abc" rfl (by decide)⟩

/-- C5, counterexample: with count `"2"`, points `"1,2,3;4,5,6"` and values
`"0.1;0.2"`, the cross-field rule does record Errors — two arity errors on
the value-list segments (the format check with its fixed arity 3 is applied
to the value list too) — contradicting "no Errors". -/
theorem spec_c5_counterexample :
    rule_FixedConstraintsBCs docBC1 = .ok
      [mkError "The vector 0.1 does not have exact 3 components"
        "Param.BCData.FixedConstraintsBCs.fDisplacements",
       mkError "The vector 0.2 does not have exact 3 components"
        "Param.BCData.FixedConstraintsBCs.fDisplacements"] ∧
    reportOf (rule_FixedConstraintsBCs docBC1) ≠ [] :=
  ⟨rfl, by decide⟩

/-- C5, amended: the count-2 scenario yields exactly the two arity Errors on
the value list; the count-3 scenario additionally yields one
count-mismatch Error per list field, each citing expected 3 and found 2 and
scoped to that field's path (four Errors in total, not one). -/
theorem spec_c5_theorem :
    rule_FixedConstraintsBCs docBC1 = .ok
      [mkError "The vector 0.1 does not have exact 3 components"
        "Param.BCData.FixedConstraintsBCs.fDisplacements",
       mkError "The vector 0.2 does not have exact 3 components"
        "Param.BCData.FixedConstraintsBCs.fDisplacements"] ∧
    rule_FixedConstraintsBCs docBC2 = .ok
      [mkError "Amount of points mismatch (expected 3, found 2)"
        "Param.BCData.FixedConstraintsBCs.fDPoints",
       mkError "Amount of points mismatch (expected 3, found 2)"
        "Param.BCData.FixedConstraintsBCs.fDisplacements",
       mkError "The vector 0.1 does not have exact 3 components"
        "Param.BCData.FixedConstraintsBCs.fDisplacements",
       mkError "The vector 0.2 does not have exact 3 components"
        "Param.BCData.FixedConstraintsBCs.fDisplacements"] :=
  ⟨rfl, rfl⟩

/-- C6, counterexample: `"1\n"` contains the non-digit `'\n'`, yet the
natural-number pattern check passes, because in Python `$` also matches
just before a trailing newline. -/
theorem spec_c6_counterexample :
    (Checkers.is_natural_number "1\n").1 = true ∧
    '\n' ∈ "1\n".data ∧ Char.isDigit '\n' = false :=
  ⟨by decide, by decide, by decide⟩

/-- Characterization of the digit-run matcher. -/
theorem natCore_eq_true (cs : List Char) :
    natCore cs = true ↔ (cs ≠ [] ∧ ∀ c ∈ cs, c.isDigit = true) := by
  simp [natCore, List.isEmpty_iff, List.all_eq_true]

/-- Injectivity of appending one final element. -/
theorem concat_inj {l t : List Char} {a b : Char} :
    l ++ [a] = t ++ [b] ↔ l = t ∧ a = b := by
  constructor
  · intro h
    have h1 := congrArg List.getLast? h
    rw [List.getLast?_concat, List.getLast?_concat, Option.some_inj] at h1
    have h2 := congrArg List.dropLast h
    rw [List.dropLast_concat, List.dropLast_concat] at h2
    exact ⟨h2, h1⟩
  · rintro ⟨rfl, rfl⟩; rfl

/-- C6, amended: the natural-number pattern check passes exactly on the
nonempty all-digit strings and on the all-digit strings followed by one
trailing newline; every other string (in particular every other string
containing a non-digit) fails. -/
theorem spec_c6_theorem (s : String) :
    (Checkers.is_natural_number s).1 = true ↔
      ((s.data ≠ [] ∧ ∀ c ∈ s.data, c.isDigit = true) ∨
       (∃ t, s.data = t ++ ['\n'] ∧ t ≠ [] ∧ ∀ c ∈ t, c.isDigit = true)) := by
  show reMatchNatural s = true ↔ _
  unfold reMatchNatural reMatchCore
  generalize s.data = cs
  induction cs using List.reverseRecOn with
  | nil => simp [natCore]
  | append_singleton l a _ =>
    rw [List.getLast?_concat, List.dropLast_concat]
    constructor
    · intro h
      rw [Bool.or_eq_true] at h
      rcases h with h1 | h1
      · exact Or.inl ((natCore_eq_true _).mp h1)
      · rw [Bool.and_eq_true] at h1
        rcases h1 with ⟨hb, hc⟩
        have ha : a = '\n' := by simpa using hb
        subst ha
        rcases (natCore_eq_true _).mp hc with ⟨hne, hall⟩
        exact Or.inr ⟨l, rfl, hne, hall⟩
    · rintro (h1 | ⟨t, ht, htne, hta⟩)
      · rw [Bool.or_eq_true]
        exact Or.inl ((natCore_eq_true _).mpr h1)
      · rcases concat_inj.mp ht with ⟨rfl, rfl⟩
        rw [Bool.or_eq_true]
        refine Or.inr ?_
        rw [Bool.and_eq_true]
        exact ⟨by decide, (natCore_eq_true _).mpr ⟨htne, hta⟩⟩

/-- C7, confirmed: `validate` resets the report first, so its result does
not depend on the prior report state (in particular two successive calls on
the same immutable document return equal results — same levels, messages
and paths), and each dispatcher's discovered rule names are run in sorted
order. -/
theorem spec_c7_theorem (prior prior' : List Entry) (ext : Ext) (d : Val) :
    hf3Validate prior ext d = hf3Validate prior' ext d ∧
    bcValidate prior d = bcValidate prior' d ∧
    List.Pairwise (fun a b => a < b) hf3RuleNames ∧
    List.Pairwise (fun a b => a < b) bcRuleNames := by
  refine ⟨?_, ?_, ?_, ?_⟩
  · unfold hf3Validate
    cases rule_check_FIELDS ext d with
    | error e => rfl
    | ok r1 =>
      cases rule_lambda_mu d with
      | error e => rfl
      | ok r2 => rfl
  · unfold bcValidate
    cases rule_DisplacementConstraintsBCs d with
    | error e => rfl
    | ok r1 =>
      cases rule_FixedConstraintsBCs d with
      | error e => rfl
      | ok r2 =>
        cases rule_ForceOrPressureBCs d with
        | error e => rfl
        | ok r3 => rfl
  · simp [hf3RuleNames, List.pairwise_cons, String.lt_iff_toList_lt]
    decide
  · simp [bcRuleNames, List.pairwise_cons, String.lt_iff_toList_lt]
    decide

/-- C8, confirmed: when both fields are present and parse as (finite)
floats, the parameter-relationship rule records exactly one Warning when
`mu > 0.5 * lambda` and records nothing otherwise. -/
theorem spec_c8_theorem (d : Val) (sMu sLam : String) (qm ql : ℚ)
    (hmu : getS "Param.ElasticityModel.mu" d = .found (.str sMu))
    (hlam : getS "Param.ElasticityModel.lambda" d = .found (.str sLam))
    (hpm : pyFloat sMu = some (.fin qm))
    (hpl : pyFloat sLam = some (.fin ql)) :
    rule_lambda_mu d =
      .ok (if qm ≤ ql / 2 then []
        else [mkWarning
          "Param.ElasticityModel.mu should half so small or smaller than Param.ElasticityModel.lambda"
          "Param.ElasticityModel.mu"]) := by
  simp only [rule_lambda_mu, floatOfGet, hmu, hlam, hpm, hpl, PyF.half, PyF.le]
  by_cases hle : qm ≤ ql / 2 <;> simp [hle]

/-- C8, witness: `mu = "5"`, `lambda = "8"` records the Warning
(5 > 4); `mu = "3"`, `lambda = "8"` records nothing (3 ≤ 4). -/
theorem spec_c8_witness :
    rule_lambda_mu docMu58 =
      .ok [mkWarning
        "Param.ElasticityModel.mu should half so small or smaller than Param.ElasticityModel.lambda"
        "Param.ElasticityModel.mu"] ∧
    rule_lambda_mu docMu38 = .ok [] := by
  constructor
  · rw [spec_c8_theorem docMu58 "5" "8" 5 8 rfl rfl (by decide) (by decide),
      if_neg (by norm_num)]
  · rw [spec_c8_theorem docMu38 "3" "8" 3 8 rfl rfl (by decide) (by decide),
      if_pos (by norm_num)]


/-- Entries recorded by `_check_exists` carry sequence number 0. -/
theorem numbers_check_exists (struct : Val) (p pre : String) (b : Bool) (es : List Entry)
    (h : check_exists struct p pre = .ok (b, es)) : ∀ e ∈ es, e.number = 0 := by
  unfold check_exists at h
  split at h
  · exact Except.noConfusion h
  all_goals
    injection h with h
    injection h with h1 h2
    subst h2
    simp [mkError]

/-- Entries recorded by the local `check_points` carry sequence number 0. -/
theorem numbers_check_points (struct : Val) (root nO f : String) (rep : List Entry)
    (h : check_points struct root nO f = .ok rep) : ∀ e ∈ rep, e.number = 0 := by
  unfold check_points at h
  split at h
  · split at h
    · exact Except.noConfusion h
    · split at h
      · injection h with h
        subst h
        intro e he
        split at he <;> simp_all [mkError]
      · exact Except.noConfusion h
  · exact Except.noConfusion h

/-- Entries recorded by `_check_points_format` carry sequence number 0. -/
theorem numbers_cpf (p s : String) : ∀ e ∈ check_points_format p s, e.number = 0 := by
  intro e he
  unfold check_points_format at he
  rw [List.mem_flatMap] at he
  obtain ⟨v, _, he⟩ := he
  rw [List.mem_append] at he
  rcases he with he | he
  · split at he <;> simp_all [mkError]
  · rw [List.mem_flatMap] at he
    obtain ⟨n, _, he⟩ := he
    split at he <;> simp_all [mkError]

/-- Entries recorded through `check_points_format_v` carry sequence number 0. -/
theorem numbers_cpfv (p : String) (v : Val) (rep : List Entry)
    (h : check_points_format_v p v = .ok rep) : ∀ e ∈ rep, e.number = 0 := by
  unfold check_points_format_v at h
  split at h
  · injection h with h
    subst h
    exact numbers_cpf p _
  · exact Except.noConfusion h

/-- Entries recorded by one schema pair check carry sequence number 0. -/
theorem numbers_checkPair (ext : Ext) (d : Val) (pr : List String × LeafCheck)
    (es : List Entry) (h : checkPair ext d pr = .ok es) : ∀ e ∈ es, e.number = 0 := by
  unfold checkPair at h
  split at h
  · exact Except.noConfusion h
  · injection h with h
    subst h
    simp [mkError]
  · split at h
    · exact Except.noConfusion h
    · injection h with h
      subst h
      intro e he
      split at he <;> simp_all [mkError]

/-- Entries recorded by the schema-pair loop carry sequence number 0. -/
theorem numbers_runPairs (ext : Ext) (d : Val) (prs : List (List String × LeafCheck))
    (rep : List Entry) (h : runPairs ext d prs = .ok rep) : ∀ e ∈ rep, e.number = 0 := by
  induction prs generalizing rep with
  | nil =>
    unfold runPairs at h
    injection h with h
    subst h
    simp
  | cons pr rest ih =>
    unfold runPairs at h
    split at h
    · exact Except.noConfusion h
    · rename_i es hes
      split at h
      · exact Except.noConfusion h
      · rename_i rest2 hrest
        injection h with h
        subst h
        intro e he
        rcases List.mem_append.mp he with he | he
        · exact numbers_checkPair ext d pr es hes e he
        · exact ih rest2 hrest e he

/-- Entries recorded by `_rule_lambda_mu` carry sequence number 0. -/
theorem numbers_rule_lambda_mu (d : Val) (rep : List Entry)
    (h : rule_lambda_mu d = .ok rep) : ∀ e ∈ rep, e.number = 0 := by
  unfold rule_lambda_mu at h
  split at h
  · exact Except.noConfusion h
  · split at h
    · exact Except.noConfusion h
    · injection h with h
      subst h
      intro e he
      split at he <;> simp_all [mkWarning]

/-- Entries recorded by `_check_entry` carry sequence number 0. -/
theorem numbers_check_entry (d : Val) (root nO pts disp : String) (rep : List Entry)
    (h : check_entry d root nO pts disp = .ok rep) : ∀ e ∈ rep, e.number = 0 := by
  unfold check_entry at h
  split at h
  · exact Except.noConfusion h
  · injection h with h
    subst h
    simp
  · rename_i struct hstruct
    split at h
    · exact Except.noConfusion h
    · rename_i e1 he1
      injection h with h
      subst h
      exact numbers_check_exists _ _ _ _ _ he1
    · rename_i e1 he1
      split at h
      · exact Except.noConfusion h
      · rename_i e2 he2
        injection h with h
        subst h
        intro e he
        rcases List.mem_append.mp he with he | he
        · exact numbers_check_exists _ _ _ _ _ he1 e he
        · exact numbers_check_exists _ _ _ _ _ he2 e he
      · rename_i e2 he2
        split at h
        · exact Except.noConfusion h
        · rename_i e3 he3
          injection h with h
          subst h
          intro e he
          rcases List.mem_append.mp he with he | he
          · rcases List.mem_append.mp he with he | he
            · exact numbers_check_exists _ _ _ _ _ he1 e he
            · exact numbers_check_exists _ _ _ _ _ he2 e he
          · exact numbers_check_exists _ _ _ _ _ he3 e he
        · rename_i e3 he3
          split at h
          · rename_i sN
            split at h
            · injection h with h
              subst h
              intro e he
              rcases List.mem_append.mp he with he | he
              · rcases List.mem_append.mp he with he | he
                · rcases List.mem_append.mp he with he | he
                  · exact numbers_check_exists _ _ _ _ _ he1 e he
                  · exact numbers_check_exists _ _ _ _ _ he2 e he
                · exact numbers_check_exists _ _ _ _ _ he3 e he
              · simp_all [mkError]
            · split at h
              · exact Except.noConfusion h
              · rename_i mP hmP
                split at h
                · exact Except.noConfusion h
                · rename_i mD hmD
                  split at h
                  · rename_i vD hvD
                    split at h
                    · exact Except.noConfusion h
                    · rename_i fD hfD
                      split at h
                      · rename_i vP hvP
                        split at h
                        · exact Except.noConfusion h
                        · rename_i fP hfP
                          injection h with h
                          subst h
                          intro e he
                          rcases List.mem_append.mp he with he | he
                          · rcases List.mem_append.mp he with he | he
                            · rcases List.mem_append.mp he with he | he
                              · rcases List.mem_append.mp he with he | he
                                · rcases List.mem_append.mp he with he | he
                                  · rcases List.mem_append.mp he with he | he
                                    · exact numbers_check_exists _ _ _ _ _ he1 e he
                                    · exact numbers_check_exists _ _ _ _ _ he2 e he
                                  · exact numbers_check_exists _ _ _ _ _ he3 e he
                                · exact numbers_check_points _ _ _ _ _ hmP e he
                              · exact numbers_check_points _ _ _ _ _ hmD e he
                            · exact numbers_cpfv _ _ _ hfD e he
                          · exact numbers_cpfv _ _ _ hfP e he
                      · exact Except.noConfusion h
                  · exact Except.noConfusion h
          · exact Except.noConfusion h

/-- C9, confirmed: every Entry of any completed validation run (either
linter, any document, any prior state) has sequence number 0. -/
theorem spec_c9_theorem (prior : List Entry) (ext : Ext) (d : Val) :
    (∀ rep, hf3Validate prior ext d = .ok rep → rep.all (fun e => e.number == 0) = true) ∧
    (∀ rep, bcValidate prior d = .ok rep → rep.all (fun e => e.number == 0) = true) := by
  constructor
  · intro rep h
    rw [List.all_eq_true]
    intro e he
    rw [beq_iff_eq]
    unfold hf3Validate at h
    split at h
    · exact Except.noConfusion h
    · rename_i r1 h1
      split at h
      · exact Except.noConfusion h
      · rename_i r2 h2
        injection h with h
        subst h
        rcases List.mem_append.mp he with he2 | he2
        · rcases List.mem_append.mp he2 with he3 | he3
          · simp [resetReport] at he3
          · unfold rule_check_FIELDS at h1
            exact numbers_runPairs ext d _ r1 h1 e he3
        · exact numbers_rule_lambda_mu d r2 h2 e he2
  · intro rep h
    rw [List.all_eq_true]
    intro e he
    rw [beq_iff_eq]
    unfold bcValidate at h
    split at h
    · exact Except.noConfusion h
    · rename_i r1 h1
      split at h
      · exact Except.noConfusion h
      · rename_i r2 h2
        split at h
        · exact Except.noConfusion h
        · rename_i r3 h3
          injection h with h
          subst h
          rcases List.mem_append.mp he with he2 | he2
          · rcases List.mem_append.mp he2 with he3 | he3
            · rcases List.mem_append.mp he3 with he4 | he4
              · simp [resetReport] at he4
              · exact numbers_check_entry _ _ _ _ _ r1 h1 e he4
            · exact numbers_check_entry _ _ _ _ _ r2 h2 e he3
          · exact numbers_check_entry _ _ _ _ _ r3 h3 e he2

/-- C9, witness: concrete completed runs of both linters in which every
recorded Entry has sequence number 0. -/
theorem spec_c9_witness :
    (reportOf (hf3Validate [] ext0 docMu58)).all (fun e => e.number == 0) = true ∧
    (reportOf (bcValidate [] docBC2)).all (fun e => e.number == 0) = true := by
  constructor
  · exact (spec_c9_theorem [] ext0 docMu58).1 _ rfl
  · exact (spec_c9_theorem [] ext0 docBC2).2 _ rfl


/-- Every entry recorded by one schema pair check is recorded at that
pair's joined path. -/
theorem checkPair_paths (ext : Ext) (d : Val) (pr : List String × LeafCheck)
    (es : List Entry) (h : checkPair ext d pr = .ok es) :
    ∀ e ∈ es, e.path = joinDot pr.1 := by
  unfold checkPair at h
  split at h
  · exact Except.noConfusion h
  · injection h with h
    subst h
    simp [mkError]
  · split at h
    · exact Except.noConfusion h
    · injection h with h
      subst h
      intro e he
      split at he <;> simp_all [mkError]

/-- Every entry of a completed schema-pair loop belongs to some processed
pair's joined path. -/
theorem runPairs_paths (ext : Ext) (d : Val) (prs : List (List String × LeafCheck))
    (rep : List Entry) (h : runPairs ext d prs = .ok rep) :
    ∀ e ∈ rep, ∃ pr ∈ prs, e.path = joinDot pr.1 := by
  induction prs generalizing rep with
  | nil =>
    unfold runPairs at h
    injection h with h
    subst h
    intro e he
    cases he
  | cons q rest ih =>
    unfold runPairs at h
    split at h
    · exact Except.noConfusion h
    · rename_i es hes
      split at h
      · exact Except.noConfusion h
      · rename_i rest2 hrest
        injection h with h
        subst h
        intro e he
        rcases List.mem_append.mp he with he | he
        · exact ⟨q, List.mem_cons_self q rest, checkPair_paths ext d q es hes e he⟩
        · obtain ⟨pr2, hp2, hp3⟩ := ih rest2 hrest e he
          exact ⟨pr2, List.mem_cons_of_mem q hp2, hp3⟩

/-- When the joined paths of a pair list are duplicate-free, filtering a
completed loop's report by one member pair's joined path recovers exactly
that pair's own entries. -/
theorem runPairs_filter (ext : Ext) (d : Val) (prs : List (List String × LeafCheck))
    (pr : List String × LeafCheck) (es : List Entry) :
    ∀ rep, nodupB (prs.map (fun q => joinDot q.1)) = true → pr ∈ prs →
      runPairs ext d prs = .ok rep → checkPair ext d pr = .ok es →
      rep.filter (fun e => e.path == joinDot pr.1) = es := by
  induction prs with
  | nil => intro rep _ hmem _ _; cases hmem
  | cons q rest ih =>
    intro rep hnd hmem hrun hcp
    have hnd2 : (!memB (joinDot q.1) (rest.map (fun r => joinDot r.1)) &&
        nodupB (rest.map (fun r => joinDot r.1))) = true := hnd
    rw [Bool.and_eq_true] at hnd2
    have hndm : memB (joinDot q.1) (rest.map (fun r => joinDot r.1)) = false := by
      rcases hnd2 with ⟨h1, _⟩
      cases hm : memB (joinDot q.1) (rest.map (fun r => joinDot r.1))
      · rfl
      · rw [hm] at h1
        exact Bool.noConfusion h1
    unfold runPairs at hrun
    split at hrun
    · exact Except.noConfusion hrun
    · rename_i es0 hes0
      split at hrun
      · exact Except.noConfusion hrun
      · rename_i rest2 hrest
        injection hrun with hrun
        subst hrun
        rw [List.filter_append]
        rcases List.mem_cons.mp hmem with rfl | hmem2
        · have hes : es0 = es := by
            rw [hes0] at hcp
            injection hcp
          subst hes
          have h1 : es0.filter (fun e => e.path == joinDot pr.1) = es0 :=
            List.filter_eq_self.mpr (fun e he => by
              rw [checkPair_paths ext d pr es0 hes0 e he, beq_self_eq_true])
          have h2 : rest2.filter (fun e => e.path == joinDot pr.1) = [] := by
            rw [List.filter_eq_nil_iff]
            intro e he hbeq
            rw [beq_iff_eq] at hbeq
            obtain ⟨pr2, hp2, hp3⟩ := runPairs_paths ext d rest rest2 hrest e he
            have hmm : memB (joinDot pr.1) (rest.map (fun r => joinDot r.1)) = true := by
              apply (memB_eq_true_iff _ _).mpr
              rw [← hbeq, hp3]
              exact List.mem_map_of_mem _ hp2
            rw [hndm] at hmm
            exact Bool.noConfusion hmm
          rw [h1, h2, List.append_nil]
        · have h1 : es0.filter (fun e => e.path == joinDot pr.1) = [] := by
            rw [List.filter_eq_nil_iff]
            intro e he hbeq
            rw [beq_iff_eq] at hbeq
            have hpath := checkPair_paths ext d q es0 hes0 e he
            have hmm : memB (joinDot q.1) (rest.map (fun r => joinDot r.1)) = true := by
              apply (memB_eq_true_iff _ _).mpr
              rw [← hpath, hbeq]
              exact List.mem_map_of_mem _ hmem2
            rw [hndm] at hmm
            exact Bool.noConfusion hmm
          rw [h1, List.nil_append]
          exact ih rest2 hnd2.2 hmem2 hrest hcp

/-- C1, amended: for every pair produced by flattening the schema and every
document on which the schema rule completes, filtering the rule's report by
that pair's path shows: a path that resolves to absent contributes exactly
one Error with message "Field does not exists" (the checker is not
consulted — the recorded entry is this fixed message regardless of the
pair's checker), and a path that resolves to a value on which the checker
evaluates without raising contributes exactly one Error carrying the
checker's message when the checker fails and nothing when it passes. -/
theorem spec_c1_theorem (ext : Ext) (d : Val) (p : List String) (lc : LeafCheck)
    (hmem : (p, lc) ∈ buildRulesFromFields) (rep : List Entry)
    (hrun : rule_check_FIELDS ext d = .ok rep) :
    (get p d = .absent →
      rep.filter (fun e => e.path == joinDot p) =
        [mkError "Field does not exists" (joinDot p)]) ∧
    (∀ v check message, get p d = .found v → runLeaf ext lc v = .ok (check, message) →
      rep.filter (fun e => e.path == joinDot p) =
        if check then [] else [mkError message (joinDot p)]) := by
  have hnodup : nodupB (buildRulesFromFields.map (fun q => joinDot q.1)) = true := by decide
  unfold rule_check_FIELDS at hrun
  constructor
  · intro habs
    have hcp : checkPair ext d (p, lc) = .ok [mkError "Field does not exists" (joinDot p)] := by
      simp only [checkPair, habs]
    exact runPairs_filter ext d buildRulesFromFields (p, lc) _ rep hnodup hmem hrun hcp
  · intro v check message hf hl
    have hcp : checkPair ext d (p, lc) =
        .ok (if check then [] else [mkError message (joinDot p)]) := by
      simp only [checkPair, hf, hl]
    exact runPairs_filter ext d buildRulesFromFields (p, lc) _ rep hnodup hmem hrun hcp

/-- C1, witness: on the empty document the schema path
`Param.OutputPathAndPrefix` is absent, and the schema rule's report filtered
at that path is exactly one "Field does not exists" Error. -/
theorem spec_c1_witness :
    (reportOf (rule_check_FIELDS ext0 docEmpty)).filter
        (fun e => e.path == joinDot ["Param", "OutputPathAndPrefix"]) =
      [mkError "Field does not exists" (joinDot ["Param", "OutputPathAndPrefix"])] := by
  have hmem : (["Param", "OutputPathAndPrefix"], LeafCheck.ck .is_str) ∈ buildRulesFromFields := by
    decide
  exact (spec_c1_theorem ext0 docEmpty ["Param", "OutputPathAndPrefix"] (LeafCheck.ck .is_str)
    hmem (reportOf (rule_check_FIELDS ext0 docEmpty)) rfl).1 rfl

/-- C1, counterexample: the missing-field message recorded by the rule is
"Field does not exists", not "Field does not exist" as the claim quotes
it. -/
theorem spec_c1_counterexample :
    (["Param", "OutputPathAndPrefix"], LeafCheck.ck .is_str) ∈ buildRulesFromFields ∧
    get ["Param", "OutputPathAndPrefix"] docEmpty = .absent ∧
    (reportOf (rule_check_FIELDS ext0 docEmpty)).filter
        (fun e => e.path == "Param.OutputPathAndPrefix") =
      [mkError "Field does not exists" "Param.OutputPathAndPrefix"] ∧
    (mkError "Field does not exists" "Param.OutputPathAndPrefix").message ≠
      "Field does not exist" := by
  refine ⟨by decide, rfl, by decide, by decide⟩


/-- C3, counterexample: a present sub-structure missing BOTH its point list
and its value list produces exactly one Error (for the point list only):
the three existence checks are combined with Python's short-circuiting
`and`, so checking stops at the first missing field — two missing fields do
not yield two Errors. -/
theorem spec_c3_counterexample :
    getS "fDPoints" structBC3 = .absent ∧
    getS "fDisplacements" structBC3 = .absent ∧
    rule_FixedConstraintsBCs docBC3 =
      .ok [mkError "Field does not exists" "Param.BCData.FixedConstraintsBCs.fDPoints"] ∧
    (reportOf (rule_FixedConstraintsBCs docBC3)).length ≠ 2 :=
  ⟨rfl, rfl, rfl, by decide⟩

/-- C3, amended: when the sub-structure is present and some of its three
fields are missing, the rule records one Error for the FIRST missing field
in the check order (count, point list, value list) and aborts; any further
missing fields of that sub-structure go unreported. -/
theorem spec_c3_theorem (d struct : Val) (root nO pts disp : String)
    (hroot : getS root d = .found struct) :
    (getS nO struct = .absent →
      check_entry d root nO pts disp =
        .ok [mkError "Field does not exists" (root ++ "." ++ nO)]) ∧
    (∀ v, getS nO struct = .found v → getS pts struct = .absent →
      check_entry d root nO pts disp =
        .ok [mkError "Field does not exists" (root ++ "." ++ pts)]) ∧
    (∀ v w, getS nO struct = .found v → getS pts struct = .found w →
      getS disp struct = .absent →
      check_entry d root nO pts disp =
        .ok [mkError "Field does not exists" (root ++ "." ++ disp)]) := by
  refine ⟨fun h1 => ?_, fun v h1 h2 => ?_, fun v w h1 h2 h3 => ?_⟩
  · simp [check_entry, hroot, check_exists, h1]
  · simp [check_entry, hroot, check_exists, h1, h2]
  · simp [check_entry, hroot, check_exists, h1, h2, h3]

/-- C3, witness: the amended behaviour at a concrete document whose
sub-structure has the count but neither list: exactly the point-list Error
is recorded. -/
theorem spec_c3_witness :
    check_entry docBC3 "Param.BCData.FixedConstraintsBCs" "NumberOfFixedDirichletPoints"
        "fDPoints" "fDisplacements" =
      .ok [mkError "Field does not exists"
        ("Param.BCData.FixedConstraintsBCs" ++ "." ++ "fDPoints")] :=
  (spec_c3_theorem docBC3 structBC3 "Param.BCData.FixedConstraintsBCs"
    "NumberOfFixedDirichletPoints" "fDPoints" "fDisplacements" rfl).2.1 (Val.str "2") rfl rfl

/-- C10, confirmed: with the sub-structure present, all three fields
present as strings and a pattern-valid count, a count-versus-length
mismatch does not abort the rule — the output is exactly the (possibly
empty) mismatch Error for each list followed by the per-segment format
checks of the value list and then of the point list; and inside the format
check every comma-separated component of every semicolon-separated segment
is float-validated, even in segments whose arity is not 3. -/
theorem spec_c10_theorem (d struct : Val) (root nO pts disp : String)
    (sN sP sD : String) (exp : Nat)
    (hroot : getS root d = .found struct)
    (hn : getS nO struct = .found (.str sN))
    (hp : getS pts struct = .found (.str sP))
    (hd : getS disp struct = .found (.str sD))
    (hnat : (Checkers.is_natural_number sN).1 = true)
    (hint : pyIntOpt sN = some exp) :
    check_entry d root nO pts disp = .ok (
      (if exp == 1 + countCh ';' sP then []
       else [mkError ("Amount of points mismatch (expected " ++ toString exp ++
          ", found " ++ toString (1 + countCh ';' sP) ++ ")") (root ++ "." ++ pts)]) ++
      (if exp == 1 + countCh ';' sD then []
       else [mkError ("Amount of points mismatch (expected " ++ toString exp ++
          ", found " ++ toString (1 + countCh ';' sD) ++ ")") (root ++ "." ++ disp)]) ++
      check_points_format (root ++ "." ++ disp) sD ++
      check_points_format (root ++ "." ++ pts) sP) ∧
    (∀ path s, ∀ seg ∈ splitStr ';' s, ∀ n ∈ splitStr ',' seg,
      (Checkers.is_float n).1 = false →
      mkError (Checkers.is_float n).2 path ∈ check_points_format path s) := by
  constructor
  · simp [check_entry, hroot, check_exists, hn, hp, hd, hnat, check_points, hint,
      check_points_format_v]
  · intro path s seg hseg n hn2 hfail
    unfold check_points_format
    rw [List.mem_flatMap]
    refine ⟨seg, hseg, ?_⟩
    rw [List.mem_append]
    right
    rw [List.mem_flatMap]
    refine ⟨n, hn2, ?_⟩
    rw [hfail]
    simp

/-- C10, witness: count "3" against two-segment lists records both mismatch
Errors and still runs the format checks, which flag the malformed vector
`1,x` and float-check its component `x`. -/
theorem spec_c10_witness :
    check_entry docBC4 "Param.BCData.FixedConstraintsBCs" "NumberOfFixedDirichletPoints"
        "fDPoints" "fDisplacements" =
      .ok [mkError "Amount of points mismatch (expected 3, found 2)"
            "Param.BCData.FixedConstraintsBCs.fDPoints",
           mkError "Amount of points mismatch (expected 3, found 2)"
            "Param.BCData.FixedConstraintsBCs.fDisplacements",
           mkError "The vector 1,x does not have exact 3 components"
            "Param.BCData.FixedConstraintsBCs.fDPoints",
           mkError (Checkers.is_float "x").2 "Param.BCData.FixedConstraintsBCs.fDPoints"] ∧
    mkError (Checkers.is_float "x").2 "Param.BCData.FixedConstraintsBCs.fDPoints" ∈
      check_points_format "Param.BCData.FixedConstraintsBCs.fDPoints" "1,x;4,5,6" := by
  constructor
  · rw [(spec_c10_theorem docBC4 structBC4 "Param.BCData.FixedConstraintsBCs"
      "NumberOfFixedDirichletPoints" "fDPoints" "fDisplacements"
      "3" "1,x;4,5,6" "7,8,9;1,2,3" 3 rfl rfl rfl rfl (by decide) (by decide)).1]
    rfl
  · exact (spec_c10_theorem docBC4 structBC4 "Param.BCData.FixedConstraintsBCs"
      "NumberOfFixedDirichletPoints" "fDPoints" "fDisplacements"
      "3" "1,x;4,5,6" "7,8,9;1,2,3" 3 rfl rfl rfl rfl (by decide) (by decide)).2
      "Param.BCData.FixedConstraintsBCs.fDPoints" "1,x;4,5,6" "1,x" (by decide) "x"
      (by decide) (by decide)

end Hf3lint



